import Mathlib

/-!
# Verification of the draw.io pattern-library store and lookup engine

Shallow embedding of the tool functions of `adk_agent_demo.py` / `test_tools.py`
(namespace `Demo`) and of `drawio_agent/agent.py` (namespace `AgentLib`):
the library store, the template resolver (`search_templates`) and the pattern
extractor (`extract_and_save_pattern`).

Modelling conventions:
* A `Library` is an association list `List (String × StyleRecord)` in insertion
  order; `dictGet`/`dictInsert` mirror Python `dict` lookup and item assignment
  (assignment to an existing key updates the value in place, a new key is
  appended at the end).
* The backing file `library.json` is a `StoreFile`: `missing` (no file),
  `invalid` (file exists but is not valid JSON), or `valid lib`.
* The input `.drawio` document is a `DocFile`: `missing` (path does not exist),
  `invalid` (markup does not parse), or `valid cells`, where `cells` lists the
  `mxCell` elements in document order as returned by `root.findall(".//mxCell")`.
* Attributes read with `cell.get(...)` are `Option String`; numeric geometry
  attributes are modelled already parsed as `Option Int` (Python applies `int`
  to the attribute string, defaulting to "80"/"40" when the attribute is absent).
* `MxGeometry.childCount` records the number of child XML elements of the
  `mxGeometry` element.  This is needed because CPython's
  `xml.etree.ElementTree.Element.__bool__` returns `len(element) != 0`, so the
  demo extractor's test `if not geometry or not cell_style` treats a geometry
  element with no children as absent.
* A Python function that can let an exception escape to its caller returns
  `PyOutcome`: `ret v` for a normal return, `raised e` for an uncaught
  exception propagating past the tool boundary.
-/

/-- One reusable visual style: the `style` string plus width/height geometry,
as stored under one key of `library.json`. -/
structure StyleRecord where
  style : String
  width : Int
  height : Int
deriving DecidableEq, Repr

/-- The persisted library: a mapping from (lowercase) key to `StyleRecord`,
in Python `dict` insertion order. -/
abbrev Library := List (String × StyleRecord)

/-- State of the backing file `library.json`. -/
inductive StoreFile where
  | missing
  | invalid
  | valid (lib : Library)
deriving DecidableEq, Repr

/-- Geometry element of a cell: parsed `width`/`height` attributes (absent
attribute = `none`) and the number of child XML elements. -/
structure MxGeometry where
  width : Option Int
  height : Option Int
  childCount : Nat
deriving DecidableEq, Repr

/-- One `mxCell` element: its attributes as read by `cell.get(...)` and its
first `mxGeometry` child as found by `cell.find("mxGeometry")`. -/
structure MxCell where
  id : Option String
  vertex : Option String
  value : Option String
  style : String
  geometry : Option MxGeometry
deriving DecidableEq, Repr

/-- A parsed diagram document: its `mxCell` elements in document order. -/
abbrev Document := List MxCell

/-- State of the input `.drawio` file handed to the extractor. -/
inductive DocFile where
  | missing
  | invalid
  | valid (cells : Document)
deriving DecidableEq, Repr

/-- Result of a Python call as seen by the caller: a normal return value, or
an exception that escaped the function. -/
inductive PyOutcome (α : Type) where
  | ret (a : α)
  | raised (exc : String)
deriving DecidableEq, Repr

/-- Python `str.lower()` (ASCII range, which covers every string these tools
ever lowercase), written as a structural map over the character list so that
concrete instances reduce inside the kernel. -/
def pyLower (s : String) : String := ⟨s.data.map Char.toLower⟩

/-- Drop leading whitespace characters from a character list. -/
def dropLead (l : List Char) : List Char :=
  match l with
  | [] => []
  | c :: t => if c.isWhitespace then dropLead t else c :: t

/-- Python `str.strip()`: remove leading and trailing whitespace. -/
def pyStrip (s : String) : String := ⟨dropLead ((dropLead s.data.reverse).reverse)⟩

/-- `leadEq a b` is true when list `a` is an initial segment of list `b`. -/
def leadEq : List Char → List Char → Bool
  | [], _ => true
  | _ :: _, [] => false
  | a :: as, b :: bs => a == b && leadEq as bs

/-- `subChars need hay` is true when `need` occurs as a contiguous sublist of
`hay` (Python `needle in haystack` on the character level). -/
def subChars (need : List Char) : List Char → Bool
  | [] => leadEq need []
  | c :: t => leadEq need (c :: t) || subChars need t

/-- Python substring test `a in b`. -/
def strIn (a b : String) : Bool := subChars a.data b.data

/-- Python `dict` lookup `d[k]` / membership `k in d` on the association-list
model of `library.json`. -/
def dictGet (lib : Library) (k : String) : Option StyleRecord :=
  match lib with
  | [] => none
  | (k', v) :: rest => if k' = k then some v else dictGet rest k

/-- Python `dict` item assignment `d[k] = v`: update in place when the key is
present, append otherwise. -/
def dictInsert (lib : Library) (k : String) (v : StyleRecord) : Library :=
  match lib with
  | [] => [(k, v)]
  | (k', v') :: rest => if k' = k then (k', v) :: rest else (k', v') :: dictInsert rest k v

/-- The library loaded from a `StoreFile` after the `except FileNotFoundError:
library = {}` recovery (missing file becomes the empty mapping). -/
def libOf : StoreFile → Library
  | .valid l => l
  | _ => []

/-- Lookup into the library held by a `StoreFile` (empty for a missing or
invalid file). -/
def storeGet (s : StoreFile) (k : String) : Option StyleRecord :=
  dictGet (libOf s) k

/-- The hard-coded default record returned when no library entry matches. -/
def defaultRecord : StyleRecord :=
  { style := "rounded=0;whiteSpace=wrap;html=1;", width := 80, height := 40 }

namespace Demo

/-- Outcome shape of `Demo.search_templates`, mirroring the four dictionaries
the Python function can return. -/
inductive SearchResult where
  | storeMissing
  | exact (r : StyleRecord)
  | fuzzy (results : Library)
  | fallback (r : StyleRecord)
deriving DecidableEq, Repr

/-- Core of `search_templates` from `adk_agent_demo.py` lines 90-109 (identical
in `test_tools.py`), after the library has been loaded: exact key match, then
substring fuzzy match in both directions, then the hard-coded default. -/
def searchCore (library : Library) (query : String) : SearchResult :=
  let query_lower := pyLower query
  match dictGet library query_lower with
  | some r => .exact r
  | none =>
    let results := library.filter fun kv => strIn query_lower kv.1 || strIn kv.1 query_lower
    if results.isEmpty then .fallback defaultRecord else .fuzzy results

/-- `search_templates` from `adk_agent_demo.py` lines 75-109: the `try` block
catches only `FileNotFoundError` (returning an error dictionary), so a backing
file that is not valid JSON raises `json.JSONDecodeError` past the tool
boundary. -/
def search_templates (store : StoreFile) (query : String) : PyOutcome SearchResult :=
  match store with
  | .missing => .ret .storeMissing
  | .invalid => .raised "json.JSONDecodeError"
  | .valid lib => .ret (searchCore lib query)

/-- The `should_extract` / `extract_key` selection of the loop body
(`adk_agent_demo.py` lines 153-164), given the pattern name and the stripped
cell label: `some key` when `should_extract` ends up true with that key,
`none` otherwise. -/
def extractKey (pattern_name cell_value : String) : Option String :=
  if pyLower pattern_name = "all" then
    (if cell_value ≠ "" then some (pyLower cell_value) else none)
  else if cell_value ≠ "" ∧ strIn (pyLower pattern_name) (pyLower cell_value) then
    some (pyLower pattern_name)
  else none

/-- Per-cell extraction decision of the loop body of `extract_and_save_pattern`
(`adk_agent_demo.py` lines 140-173): `some (key, record)` when the cell causes
a library write, `none` when the loop `continue`s or the final
`if should_extract and extract_key` guard fails.  The decision depends only
on the cell and the pattern name, never on the accumulated state.
`if not geometry or not cell_style` uses Python element truthiness: a geometry
element with no children counts as absent. -/
def cellPair (pattern_name : String) (c : MxCell) : Option (String × StyleRecord) :=
  if c.vertex = some "1" ∧ c.id ≠ some "0" ∧ c.id ≠ some "1" then
    match c.geometry with
    | none => none
    | some g =>
      if g.childCount = 0 ∨ c.style = "" then none
      else
        match extractKey pattern_name (pyStrip (c.value.getD "")) with
        | some key =>
          if key ≠ "" then
            some (key, { style := c.style, width := g.width.getD 80, height := g.height.getD 40 })
          else none
        | none => none
  else none

/-- Accumulated state of the extraction loop: the in-memory library, the keys
recorded in `new_patterns` (dict insertion order, no duplicates), and
`extracted_count`. -/
structure ExtState where
  library : Library
  new_patterns : List String
  extracted_count : Nat
deriving DecidableEq, Repr

/-- `new_patterns[key] = True` on the keys-in-insertion-order model. -/
def notePattern (ns : List String) (k : String) : List String :=
  if k ∈ ns then ns else ns ++ [k]

/-- One iteration of the extraction loop of `adk_agent_demo.py` lines 140-173. -/
def processCell (pattern_name : String) (st : ExtState) (c : MxCell) : ExtState :=
  match cellPair pattern_name c with
  | none => st
  | some kv =>
    { library := dictInsert st.library kv.1 kv.2
      new_patterns := notePattern st.new_patterns kv.1
      extracted_count := st.extracted_count + 1 }

/-- Outcome shape of `Demo.extract_and_save_pattern`, mirroring its return
strings. -/
inductive ExtractOutcome where
  | fileNotFound
  | extractionError
  | nothingFound
  | success (count : Nat) (new_keys : List String)
deriving DecidableEq, Repr

/-- The loop and tail of `extract_and_save_pattern` (`adk_agent_demo.py` lines
140-183) once the document is parsed and the library loaded: run the loop over
all cells; report "no suitable cells" without writing when the count is zero,
otherwise write the merged library back. -/
def extractCore (cells : Document) (library : Library) (store : StoreFile)
    (pattern_name : String) : ExtractOutcome × StoreFile :=
  let final := cells.foldl (processCell pattern_name) ⟨library, [], 0⟩
  if final.extracted_count = 0 then (.nothingFound, store)
  else (.success final.extracted_count final.new_patterns, .valid final.library)

/-- `extract_and_save_pattern` from `adk_agent_demo.py` lines 111-186: missing
input path reported first; a parse failure of the document or a JSON decode
failure of the backing file is caught by the trailing `except Exception` and
returned as an extraction-error value, leaving the store file unwritten. -/
def extract_and_save_pattern (doc : DocFile) (store : StoreFile)
    (pattern_name : String) : ExtractOutcome × StoreFile :=
  match doc with
  | .missing => (.fileNotFound, store)
  | .invalid => (.extractionError, store)
  | .valid cells =>
    match store with
    | .invalid => (.extractionError, .invalid)
    | .missing => extractCore cells [] .missing pattern_name
    | .valid l => extractCore cells l (.valid l) pattern_name

end Demo

namespace AgentLib

/-- The vertex filter shared by both selection loops of
`drawio_agent/agent.py` `extract_and_save_pattern`:
`cell.get("vertex") == "1" and cell.get("id") not in ["0", "1"]`. -/
def qualifies (c : MxCell) : Bool :=
  c.vertex == some "1" && c.id != some "0" && c.id != some "1"

/-- `search_templates` from `drawio_agent/agent.py` lines 10-30: a missing
backing file is replaced by the empty library (fail soft), but only
`FileNotFoundError` is caught, so invalid JSON raises past the tool boundary.
The loop returns the record of the first stored key that is a substring of the
lowercased query, else the hard-coded default record. -/
def search_templates (store : StoreFile) (query : String) : PyOutcome StyleRecord :=
  match store with
  | .invalid => .raised "json.JSONDecodeError"
  | _ =>
    let library := libOf store
    let query_lower := pyLower query
    match library.find? (fun kv => strIn kv.1 query_lower) with
    | some kv => .ret kv.2
    | none => .ret defaultRecord

/-- Outcome shape of `AgentLib.extract_and_save_pattern`, mirroring its return
strings.  `extractionError` covers the trailing `except Exception` (unparsable
or missing input file — `agent.py` calls `ET.parse` without an existence check
— and invalid JSON in the backing file). -/
inductive ExtractOutcome where
  | extractionError
  | noVertexCells
  | noGeometry
  | success
deriving DecidableEq, Repr

/-- `extract_and_save_pattern` from `drawio_agent/agent.py` lines 32-88:
select the first qualifying cell whose label contains the pattern name
case-insensitively (an empty pattern name matches every cell); if none, fall
back to the first qualifying cell; if none at all, report that no valid vertex
cells exist.  A chosen cell without a geometry child is a hard error.  On
success, upsert one record under the lowercased pattern name and write the
library back. -/
def extract_and_save_pattern (doc : DocFile) (store : StoreFile)
    (pattern_name : String) : ExtractOutcome × StoreFile :=
  match doc with
  | .missing => (.extractionError, store)
  | .invalid => (.extractionError, store)
  | .valid cells =>
    let firstLabelled := cells.find? fun c =>
      qualifies c && (pattern_name == "" || strIn (pyLower pattern_name) (pyLower (c.value.getD "")))
    let target := match firstLabelled with
      | some c => some c
      | none => cells.find? qualifies
    match target with
    | none => (.noVertexCells, store)
    | some c =>
      match c.geometry with
      | none => (.noGeometry, store)
      | some g =>
        match store with
        | .invalid => (.extractionError, .invalid)
        | _ =>
          let library := libOf store
          let record : StyleRecord :=
            { style := c.style, width := g.width.getD 80, height := g.height.getD 40 }
          (.success, .valid (dictInsert library (pyLower pattern_name) record))

end AgentLib

/-! ## Derived notions and sample data used by the verification theorems -/

/-- Folding step on the library component only: one `library[key] = record`
assignment. -/
def insRecord (L : Library) (kv : String × StyleRecord) : Library :=
  dictInsert L kv.1 kv.2

/-- The (key, record) writes the demo extraction loop performs on a document,
in document order. -/
def cellPairs (p : String) (cells : Document) : List (String × StyleRecord) :=
  cells.filterMap (Demo.cellPair p)

/-- Accumulate the `new_patterns` keys over a list of writes. -/
def keysAcc (ns : List String) (ps : List (String × StyleRecord)) : List String :=
  ps.foldl (fun ns kv => Demo.notePattern ns kv.1) ns

/-- The record of the last write under key `k` in a list of writes, if any. -/
def lastVal : List (String × StyleRecord) → String → Option StyleRecord
  | [], _ => none
  | kv :: t, k =>
    match lastVal t k with
    | some v => some v
    | none => if kv.1 = k then some kv.2 else none

/-- Case-insensitive label containment: the claim-side reading of "the shape's
label contains the pattern name as a case-insensitive substring". -/
def labelHas (p : String) (c : MxCell) : Bool :=
  strIn (pyLower p) (pyLower (c.value.getD ""))

/-- The end-to-end scenario's shape: label "K8s Pod", style string
"fillColor=#fff;", geometry width 120 and height 60.  Its `mxGeometry`
element has no child elements, as is normal for a vertex cell. -/
def samplePodCell : MxCell :=
  { id := some "2", vertex := some "1", value := some "K8s Pod",
    style := "fillColor=#fff;",
    geometry := some { width := some 120, height := some 60, childCount := 0 } }

/-- The same shape but with one child element inside its geometry element, so
that Python's element truthiness considers the geometry present. -/
def samplePodCellWithChild : MxCell :=
  { samplePodCell with
    geometry := some { width := some 120, height := some 60, childCount := 1 } }

/-- The record the end-to-end scenario expects under key "k8s pod". -/
def samplePodRecord : StyleRecord :=
  { style := "fillColor=#fff;", width := 120, height := 60 }

/-- A qualifying shape whose label does not mention pods. -/
def routerCell : MxCell :=
  { id := some "3", vertex := some "1", value := some "Edge Router",
    style := "shape=router;",
    geometry := some { width := some 90, height := some 50, childCount := 0 } }

/-- A qualifying shape with no label at all. -/
def unlabeledCell : MxCell :=
  { id := some "4", vertex := some "1", value := none,
    style := "rounded=1;",
    geometry := some { width := some 70, height := some 30, childCount := 0 } }

/-- A labelled shape whose style string is empty (and whose geometry would
otherwise qualify). -/
def stylelessCell : MxCell :=
  { id := some "5", vertex := some "1", value := some "Box",
    style := "",
    geometry := some { width := some 10, height := some 10, childCount := 1 } }

/-! ## Helper lemmas -/

theorem dictGet_dictInsert (L : Library) (k k' : String) (v : StyleRecord) :
    dictGet (dictInsert L k v) k' = if k = k' then some v else dictGet L k' := by
  induction L with
  | nil => rfl
  | cons a t ih =>
    obtain ⟨ka, va⟩ := a
    by_cases hak : ka = k
    · subst hak
      simp only [dictInsert, if_pos rfl, dictGet]
      by_cases h : ka = k' <;> simp [h]
    · simp only [dictInsert, if_neg hak, dictGet, ih]
      by_cases h1 : ka = k' <;> by_cases h2 : k = k' <;> simp_all

theorem dictGet_foldl_insRecord (ps : List (String × StyleRecord)) (L : Library) (k : String) :
    dictGet (ps.foldl insRecord L) k =
      match lastVal ps k with
      | some v => some v
      | none => dictGet L k := by
  induction ps generalizing L with
  | nil => rfl
  | cons kv t ih =>
    rw [List.foldl_cons, ih]
    cases h : lastVal t k with
    | some v => simp [lastVal, h]
    | none =>
      simp only [lastVal, h, insRecord, dictGet_dictInsert]
      by_cases hk : kv.1 = k <;> simp [hk]

theorem extFold_library (p : String) (cells : Document) (st : Demo.ExtState) :
    (cells.foldl (Demo.processCell p) st).library =
      (cellPairs p cells).foldl insRecord st.library := by
  induction cells generalizing st with
  | nil => rfl
  | cons c t ih =>
    rw [List.foldl_cons]
    cases h : Demo.cellPair p c with
    | none => simp [cellPairs, List.filterMap_cons, h, Demo.processCell, ih]
    | some kv =>
      simp only [cellPairs, List.filterMap_cons, h, Demo.processCell, ih, List.foldl_cons]
      rfl

theorem extFold_count (p : String) (cells : Document) (st : Demo.ExtState) :
    (cells.foldl (Demo.processCell p) st).extracted_count =
      st.extracted_count + (cellPairs p cells).length := by
  induction cells generalizing st with
  | nil => rfl
  | cons c t ih =>
    rw [List.foldl_cons]
    cases h : Demo.cellPair p c with
    | none => simp [cellPairs, List.filterMap_cons, h, Demo.processCell, ih]
    | some kv =>
      simp only [cellPairs, List.filterMap_cons, h, Demo.processCell, ih, List.length_cons]
      try omega

theorem extFold_keys (p : String) (cells : Document) (st : Demo.ExtState) :
    (cells.foldl (Demo.processCell p) st).new_patterns =
      keysAcc st.new_patterns (cellPairs p cells) := by
  induction cells generalizing st with
  | nil => rfl
  | cons c t ih =>
    rw [List.foldl_cons]
    cases h : Demo.cellPair p c with
    | none => simp [cellPairs, List.filterMap_cons, h, Demo.processCell, ih, keysAcc]
    | some kv =>
      simp only [cellPairs, List.filterMap_cons, h, Demo.processCell, ih, keysAcc, List.foldl_cons]

theorem extractCore_eq (cells : Document) (L : Library) (store : StoreFile) (p : String) :
    Demo.extractCore cells L store p =
      if (cellPairs p cells).length = 0 then (.nothingFound, store)
      else (.success (cellPairs p cells).length (keysAcc [] (cellPairs p cells)),
            .valid ((cellPairs p cells).foldl insRecord L)) := by
  have hc := extFold_count p cells (⟨L, [], 0⟩ : Demo.ExtState)
  have hl := extFold_library p cells (⟨L, [], 0⟩ : Demo.ExtState)
  have hk := extFold_keys p cells (⟨L, [], 0⟩ : Demo.ExtState)
  simp only [Demo.extractCore, hc, hl, hk]
  simp

theorem extract_valid_doc (cells : Document) (store : StoreFile) (p : String)
    (hs : store ≠ .invalid) :
    Demo.extract_and_save_pattern (.valid cells) store p =
      Demo.extractCore cells (libOf store) store p := by
  cases store with
  | invalid => exact absurd rfl hs
  | missing => rfl
  | valid l => rfl

theorem extractKey_of_ne_all (p v k : String) (hp : pyLower p ≠ "all")
    (h : Demo.extractKey p v = some k) : k = pyLower p := by
  unfold Demo.extractKey at h
  rw [if_neg hp] at h
  split at h
  · exact (Option.some.inj h).symm
  · exact Option.noConfusion h

theorem cellPair_key_of_ne_all (p : String) (c : MxCell) (kv : String × StyleRecord)
    (hp : pyLower p ≠ "all") (h : Demo.cellPair p c = some kv) : kv.1 = pyLower p := by
  unfold Demo.cellPair at h
  split at h
  · split at h
    · exact Option.noConfusion h
    · split at h
      · exact Option.noConfusion h
      · split at h
        · split at h
          · cases h
            exact extractKey_of_ne_all p _ _ hp (by assumption)
          · exact Option.noConfusion h
        · exact Option.noConfusion h
  · exact Option.noConfusion h

theorem cellPair_of_style_empty (p : String) (c : MxCell) (h : c.style = "") :
    Demo.cellPair p c = none := by
  unfold Demo.cellPair
  split
  · rcases hg : c.geometry with _ | g
    · rfl
    · simp [h]
  · rfl

theorem extractKey_sentinel (p : String) (hp : pyLower p = "all") :
    Demo.extractKey p = Demo.extractKey "all" := by
  funext v
  unfold Demo.extractKey
  rw [hp, show pyLower "all" = "all" from rfl]

theorem cellPair_sentinel (p : String) (hp : pyLower p = "all") :
    Demo.cellPair p = Demo.cellPair "all" := by
  funext c
  unfold Demo.cellPair
  rw [extractKey_sentinel p hp]

theorem processCell_sentinel (p : String) (hp : pyLower p = "all") :
    Demo.processCell p = Demo.processCell "all" := by
  funext st c
  unfold Demo.processCell
  rw [cellPair_sentinel p hp]

theorem extractCore_outcome_indep (cells : Document) (L : Library)
    (s s' : StoreFile) (p : String) :
    (Demo.extractCore cells L s p).1 = (Demo.extractCore cells L s' p).1 := by
  unfold Demo.extractCore
  by_cases h : (cells.foldl (Demo.processCell p) ⟨L, [], 0⟩).extracted_count = 0 <;>
    simp [h]

theorem lastVal_of_keys_ne (ps : List (String × StyleRecord)) (k : String)
    (h : ∀ kv ∈ ps, kv.1 ≠ k) : lastVal ps k = none := by
  induction ps with
  | nil => rfl
  | cons kv t ih =>
    simp only [lastVal, ih fun x hx => h x (List.mem_cons_of_mem kv hx)]
    rw [if_neg (h kv (List.mem_cons_self kv t))]

/-! ## Claim theorems -/

/-- Claim C1 (code bug): on the end-to-end scenario's document — exactly one
shape labelled "K8s Pod", style "fillColor=#fff;", geometry width 120 and
height 60 — the demo extractor with pattern "all" extracts nothing and writes
no library, because the childless geometry element is falsy under Python's
element truthiness, so the subsequent resolve of "k8s pod" hits a missing
store.  With a child element inside the geometry (making it truthy) the very
same call produces exactly the library, exact match, fuzzy match and default
fallback the claim describes, confirming that the claim states the intended
behaviour. -/
theorem c1_end_to_end_truthiness_bug :
    Demo.extract_and_save_pattern (.valid [samplePodCell]) .missing "all" =
      (.nothingFound, .missing) ∧
    Demo.search_templates .missing "k8s pod" = .ret .storeMissing ∧
    Demo.extract_and_save_pattern (.valid [samplePodCellWithChild]) .missing "all" =
      (.success 1 ["k8s pod"], .valid [("k8s pod", samplePodRecord)]) ∧
    Demo.search_templates (.valid [("k8s pod", samplePodRecord)]) "k8s pod" =
      .ret (.exact samplePodRecord) ∧
    Demo.search_templates (.valid [("k8s pod", samplePodRecord)]) "pod" =
      .ret (.fuzzy [("k8s pod", samplePodRecord)]) ∧
    Demo.search_templates (.valid [("k8s pod", samplePodRecord)]) "database" =
      .ret (.fallback defaultRecord) :=
  ⟨rfl, rfl, rfl, rfl, rfl, rfl⟩

/-- Claim C2: whenever the lowercased query is itself a stored key, the demo
resolver returns that key's record directly, regardless of what else would
fuzzy-match. -/
theorem c2_exact_match_priority (lib : Library) (q : String) (r : StyleRecord)
    (h : dictGet lib (pyLower q) = some r) :
    Demo.search_templates (.valid lib) q = .ret (.exact r) := by
  simp only [Demo.search_templates, Demo.searchCore, h]

/-- Witness for C2: the library stores both "pod" and "k8s pod"; "pod" would
fuzzy-match the query "K8s Pod", yet the exact key "k8s pod" wins. -/
theorem c2_exact_match_priority_witness :
    Demo.search_templates
      (.valid [("pod", { style := "a", width := 1, height := 1 }),
               ("k8s pod", { style := "b", width := 2, height := 2 })]) "K8s Pod" =
      .ret (.exact { style := "b", width := 2, height := 2 }) :=
  c2_exact_match_priority _ _ _ rfl

/-- Claim C3: with no exact key match, the demo resolver returns the set of
all keys in a substring relationship (either direction) with the lowercased
query, as fuzzy candidates, whenever that set is non-empty; in particular a
library holding "k8s pod" answers both the query "k8s" (query inside key) and
the query "k8s pod extra" (key inside query) with a fuzzy set containing
"k8s pod". -/
theorem c3_fuzzy_substring_both_directions :
    (∀ (lib : Library) (q : String),
      dictGet lib (pyLower q) = none →
      lib.filter (fun kv => strIn (pyLower q) kv.1 || strIn kv.1 (pyLower q)) ≠ [] →
      Demo.search_templates (.valid lib) q =
        .ret (.fuzzy (lib.filter
          (fun kv => strIn (pyLower q) kv.1 || strIn kv.1 (pyLower q))))) ∧
    (∀ r : StyleRecord,
      Demo.search_templates (.valid [("k8s pod", r)]) "k8s" =
        .ret (.fuzzy [("k8s pod", r)])) ∧
    (∀ r : StyleRecord,
      Demo.search_templates (.valid [("k8s pod", r)]) "k8s pod extra" =
        .ret (.fuzzy [("k8s pod", r)])) := by
  refine ⟨fun lib q hex hne => ?_, fun r => rfl, fun r => rfl⟩
  have hemp : (lib.filter
      (fun kv => strIn (pyLower q) kv.1 || strIn kv.1 (pyLower q))).isEmpty = false := by
    cases hf : lib.filter (fun kv => strIn (pyLower q) kv.1 || strIn kv.1 (pyLower q)) with
    | nil => exact absurd hf hne
    | cons a t => rfl
  simp only [Demo.search_templates, Demo.searchCore, hex, hemp]
  simp

/-- Witness for C3: the library holds only "k8s pod"; the query "pod" has no
exact match and yields the fuzzy candidate set containing "k8s pod". -/
theorem c3_fuzzy_substring_witness :
    Demo.search_templates (.valid [("k8s pod", samplePodRecord)]) "pod" =
      .ret (.fuzzy [("k8s pod", samplePodRecord)]) :=
  c3_fuzzy_substring_both_directions.1 _ "pod" rfl (by decide)

/-- Claim C4 counterexample: when the backing file is absent, the demo
resolver does not recover with an empty mapping — it returns the error
dictionary (modelled `storeMissing`) to the caller. -/
theorem c4_missing_store_counterexample :
    Demo.search_templates .missing "database" = .ret .storeMissing := rfl

/-- Claim C4 as amended: the demo extractor and the drawio_agent resolver do
recover from a missing backing file by substituting the empty mapping and
proceeding, but the demo resolver instead returns a descriptive error value. -/
theorem c4_missing_store_amended :
    (∀ (cells : Document) (p : String),
      (Demo.extract_and_save_pattern (.valid cells) .missing p).1 =
        (Demo.extract_and_save_pattern (.valid cells) (.valid []) p).1) ∧
    (∀ q : String,
      AgentLib.search_templates .missing q = AgentLib.search_templates (.valid []) q) ∧
    (∀ q : String, Demo.search_templates .missing q = .ret .storeMissing) := by
  refine ⟨fun cells p => ?_, fun q => rfl, fun q => rfl⟩
  exact extractCore_outcome_indep cells [] .missing (.valid []) p

/-- Claim C5: a query with no exact match and no substring relationship with
any stored key resolves to exactly the hard-coded default rectangle record,
marked as a fallback. -/
theorem c5_default_fallback (lib : Library) (q : String)
    (hex : dictGet lib (pyLower q) = none)
    (hrel : ∀ kv ∈ lib, strIn (pyLower q) kv.1 = false ∧ strIn kv.1 (pyLower q) = false) :
    Demo.search_templates (.valid lib) q =
      .ret (.fallback { style := "rounded=0;whiteSpace=wrap;html=1;", width := 80, height := 40 }) := by
  have hfil : lib.filter (fun kv => strIn (pyLower q) kv.1 || strIn kv.1 (pyLower q)) = [] := by
    rw [List.filter_eq_nil_iff]
    intro kv hkv
    simp [(hrel kv hkv).1, (hrel kv hkv).2]
  simp only [Demo.search_templates, Demo.searchCore, hex, hfil]
  rfl

/-- Witness for C5: "database" stands in no substring relationship with the
stored key "k8s pod" and resolves to the default record. -/
theorem c5_default_fallback_witness :
    Demo.search_templates (.valid [("k8s pod", samplePodRecord)]) "database" =
      .ret (.fallback { style := "rounded=0;whiteSpace=wrap;html=1;", width := 80, height := 40 }) :=
  c5_default_fallback _ _ rfl (by decide)

/-- Claim C8 counterexample: a backing file that exists but is not valid JSON
makes the demo resolver raise the deserialization exception past the tool
boundary instead of returning an error value — its `try` catches only
`FileNotFoundError`. -/
theorem c8_invalid_json_raises :
    Demo.search_templates .invalid "k8s pod" = .raised "json.JSONDecodeError" := rfl

/-- Claim C8 as amended: failures inside `extract_and_save_pattern` (missing
input file, unparsable document, unreadable backing store) are returned as
descriptive error values without mutation, and the resolver returns an error
value for a missing backing file; but a backing file holding invalid JSON
raises past the resolver's tool boundary in both implementations. -/
theorem c8_error_values_amended :
    (∀ (store : StoreFile) (p : String),
      Demo.extract_and_save_pattern .missing store p = (.fileNotFound, store)) ∧
    (∀ (store : StoreFile) (p : String),
      Demo.extract_and_save_pattern .invalid store p = (.extractionError, store)) ∧
    (∀ (cells : Document) (p : String),
      Demo.extract_and_save_pattern (.valid cells) .invalid p = (.extractionError, .invalid)) ∧
    (∀ q : String, Demo.search_templates .missing q = .ret .storeMissing) ∧
    (∀ q : String, Demo.search_templates .invalid q = .raised "json.JSONDecodeError") ∧
    (∀ q : String, AgentLib.search_templates .invalid q = .raised "json.JSONDecodeError") :=
  ⟨fun _ _ => rfl, fun _ _ => rfl, fun _ _ => rfl,
   fun _ => rfl, fun _ => rfl, fun _ => rfl⟩

/-- Claim C6: for a specific pattern name, the drawio_agent extractor selects
the first qualifying shape whose label contains the pattern name
case-insensitively; with no label match it falls back to the first qualifying
shape in document order; with no qualifying shape at all it reports a
not-found error; and on success it upserts exactly one record, built from the
chosen shape's style and geometry, under the lowercased pattern name. -/
theorem c6_specific_extraction (cells : Document) (store : StoreFile) (p : String)
    (hp : p ≠ "") (hs : store ≠ .invalid) :
    (∀ c g, cells.find? (fun c => AgentLib.qualifies c && labelHas p c) = some c →
        c.geometry = some g →
        AgentLib.extract_and_save_pattern (.valid cells) store p =
          (.success, .valid (dictInsert (libOf store) (pyLower p)
            { style := c.style, width := g.width.getD 80, height := g.height.getD 40 }))) ∧
    (∀ c g, cells.find? (fun c => AgentLib.qualifies c && labelHas p c) = none →
        cells.find? AgentLib.qualifies = some c → c.geometry = some g →
        AgentLib.extract_and_save_pattern (.valid cells) store p =
          (.success, .valid (dictInsert (libOf store) (pyLower p)
            { style := c.style, width := g.width.getD 80, height := g.height.getD 40 }))) ∧
    (cells.find? AgentLib.qualifies = none →
        AgentLib.extract_and_save_pattern (.valid cells) store p = (.noVertexCells, store)) := by
  have hbeq : (p == "") = false := beq_eq_false_iff_ne.mpr hp
  have hpred : (fun c => AgentLib.qualifies c &&
      (p == "" || strIn (pyLower p) (pyLower (c.value.getD "")))) =
      (fun c => AgentLib.qualifies c && labelHas p c) := by
    funext c
    rw [hbeq]
    rfl
  refine ⟨fun c g h1 h2 => ?_, fun c g h0 h1 h2 => ?_, fun h1 => ?_⟩
  · simp only [AgentLib.extract_and_save_pattern, hpred, h1, h2]
  · simp only [AgentLib.extract_and_save_pattern, hpred, h0, h1, h2]
  · have h0 : cells.find? (fun c => AgentLib.qualifies c && labelHas p c) = none := by
      rw [List.find?_eq_none] at h1 ⊢
      intro x hx hcontra
      rw [Bool.and_eq_true] at hcontra
      exact h1 x hx hcontra.1
    simp only [AgentLib.extract_and_save_pattern, hpred, h0, h1]

/-- Witness for C6: a label match beats document order (the pod cell is chosen
over the router cell for pattern "Pod"); an unlabelled qualifying cell is the
fallback for pattern "zzz"; an empty document reports the not-found error. -/
theorem c6_specific_extraction_witness :
    AgentLib.extract_and_save_pattern (.valid [routerCell, samplePodCell]) .missing "Pod" =
      (.success, .valid [("pod", samplePodRecord)]) ∧
    AgentLib.extract_and_save_pattern (.valid [unlabeledCell]) .missing "zzz" =
      (.success, .valid [("zzz", { style := "rounded=1;", width := 70, height := 30 })]) ∧
    AgentLib.extract_and_save_pattern (.valid []) .missing "pod" = (.noVertexCells, .missing) :=
  ⟨(c6_specific_extraction [routerCell, samplePodCell] .missing "Pod"
      (by decide) (by decide)).1 samplePodCell ⟨some 120, some 60, 0⟩ rfl rfl,
   ((c6_specific_extraction [unlabeledCell] .missing "zzz"
      (by decide) (by decide)).2).1 unlabeledCell ⟨some 70, some 30, 0⟩ rfl rfl rfl,
   ((c6_specific_extraction [] .missing "pod" (by decide) (by decide)).2).2 rfl⟩

/-- Claim C7: when the demo extraction loop finds zero qualifying elements
(no cell produces a write), the call reports "nothing found" and the backing
store is left exactly as it was; and in "all" mode a cell whose style string
is empty never contributes a library entry, whatever its label. -/
theorem c7_nothing_found_no_write :
    (∀ (cells : Document) (store : StoreFile) (p : String), store ≠ .invalid →
      cellPairs p cells = [] →
      Demo.extract_and_save_pattern (.valid cells) store p = (.nothingFound, store)) ∧
    (∀ (st : Demo.ExtState) (c : MxCell), c.style = "" →
      Demo.processCell "all" st c = st) := by
  constructor
  · intro cells store p hs hps
    rw [extract_valid_doc cells store p hs, extractCore_eq, hps]
    rfl
  · intro st c hc
    simp [Demo.processCell, cellPair_of_style_empty "all" c hc]

/-- Witness for C7: a document holding only a labelled but style-less cell
yields the nothing-found outcome with the store untouched, and that cell is a
no-op for the extraction loop state. -/
theorem c7_nothing_found_no_write_witness :
    Demo.extract_and_save_pattern (.valid [stylelessCell]) .missing "all" =
      (.nothingFound, .missing) ∧
    Demo.processCell "all" ⟨[], [], 0⟩ stylelessCell = ⟨[], [], 0⟩ :=
  ⟨c7_nothing_found_no_write.1 [stylelessCell] .missing "all" (by decide) rfl,
   c7_nothing_found_no_write.2 ⟨[], [], 0⟩ stylelessCell rfl⟩

/-- Claim C9: "all"-mode extraction is idempotent — after a successful first
call has produced library state L₁, repeating the identical call still reports
the same success (same count and key list) and leaves every key of the library
bound to the same record. -/
theorem c9_all_extraction_idempotent (cells : Document) (store : StoreFile)
    (n : Nat) (ks : List String) (L₁ : Library)
    (h : Demo.extract_and_save_pattern (.valid cells) store "all" =
      (.success n ks, .valid L₁)) :
    (Demo.extract_and_save_pattern (.valid cells) (.valid L₁) "all").1 = .success n ks ∧
    ∀ k, storeGet (Demo.extract_and_save_pattern (.valid cells) (.valid L₁) "all").2 k =
      dictGet L₁ k := by
  by_cases hs : store = .invalid
  · subst hs
    exact absurd h (by simp [Demo.extract_and_save_pattern])
  · rw [extract_valid_doc cells store "all" hs, extractCore_eq] at h
    by_cases hlen : (cellPairs "all" cells).length = 0
    · rw [if_pos hlen] at h
      exact absurd h (by simp)
    · rw [if_neg hlen] at h
      simp only [Prod.mk.injEq, Demo.ExtractOutcome.success.injEq, StoreFile.valid.injEq] at h
      obtain ⟨⟨hn, hk⟩, hL⟩ := h
      constructor
      · rw [extract_valid_doc cells (.valid L₁) "all" (by simp), extractCore_eq, if_neg hlen]
        rw [show libOf (.valid L₁) = L₁ from rfl]
        rw [hn, hk]
      · intro k
        rw [extract_valid_doc cells (.valid L₁) "all" (by simp), extractCore_eq, if_neg hlen]
        simp only [storeGet, libOf]
        rw [dictGet_foldl_insRecord]
        cases hv : lastVal (cellPairs "all" cells) k with
        | some v =>
          rw [← hL, dictGet_foldl_insRecord, hv]
        | none => rfl

/-- Witness for C9: the first "all" extraction of the one-pod document (with
truthy geometry) succeeds and writes library state L₁; running it again on L₁
reports the same success. -/
theorem c9_all_extraction_idempotent_witness :
    (Demo.extract_and_save_pattern (.valid [samplePodCellWithChild])
      (.valid [("k8s pod", samplePodRecord)]) "all").1 = .success 1 ["k8s pod"] :=
  (c9_all_extraction_idempotent [samplePodCellWithChild] .missing 1 ["k8s pod"]
    [("k8s pod", samplePodRecord)] rfl).1

/-- Claim C10: the "all" sentinel is recognised after lowercasing, so any
pattern name whose lowercased form is "all" runs the demo extractor in
all-mode; and a specific pattern name (lowercased form different from "all")
can never create or change a library entry under the key "all", whatever the
document's labels. -/
theorem c10_all_sentinel_case_insensitive :
    (∀ (p : String) (doc : DocFile) (store : StoreFile), pyLower p = "all" →
      Demo.extract_and_save_pattern doc store p =
        Demo.extract_and_save_pattern doc store "all") ∧
    (∀ (p : String) (cells : Document) (store : StoreFile), pyLower p ≠ "all" →
      storeGet (Demo.extract_and_save_pattern (.valid cells) store p).2 "all" =
        storeGet store "all") := by
  constructor
  · intro p doc store hp
    have hpc := processCell_sentinel p hp
    cases doc with
    | missing => rfl
    | invalid => rfl
    | valid cells =>
      cases store with
      | invalid => rfl
      | missing =>
        show Demo.extractCore cells [] .missing p = Demo.extractCore cells [] .missing "all"
        unfold Demo.extractCore
        rw [hpc]
      | valid l =>
        show Demo.extractCore cells l (.valid l) p = Demo.extractCore cells l (.valid l) "all"
        unfold Demo.extractCore
        rw [hpc]
  · intro p cells store hp
    by_cases hs : store = .invalid
    · subst hs
      rfl
    · rw [extract_valid_doc cells store p hs, extractCore_eq]
      have hkeys : ∀ kv ∈ cellPairs p cells, kv.1 ≠ "all" := by
        intro kv hkv
        obtain ⟨c, _, hcp⟩ := List.mem_filterMap.mp hkv
        rw [cellPair_key_of_ne_all p c kv hp hcp]
        exact hp
      by_cases hlen : (cellPairs p cells).length = 0
      · rw [if_pos hlen]
      · rw [if_neg hlen]
        simp only [storeGet, libOf]
        rw [dictGet_foldl_insRecord, lastVal_of_keys_ne _ _ hkeys]

/-- Witness for C10: pattern "ALL" behaves exactly like pattern "all" on the
one-pod document, and a specific extraction with pattern "K8s Pod" (which does
write a record) leaves the key "all" unbound. -/
theorem c10_all_sentinel_witness :
    Demo.extract_and_save_pattern (.valid [samplePodCell]) .missing "ALL" =
      Demo.extract_and_save_pattern (.valid [samplePodCell]) .missing "all" ∧
    storeGet (Demo.extract_and_save_pattern (.valid [samplePodCellWithChild])
      .missing "K8s Pod").2 "all" = storeGet .missing "all" :=
  ⟨c10_all_sentinel_case_insensitive.1 "ALL" (.valid [samplePodCell]) .missing rfl,
   c10_all_sentinel_case_insensitive.2 "K8s Pod" [samplePodCellWithChild] .missing (by decide)⟩
